import Mathlib

/-!
# Verification of `SceneManager.cpp` (CS-330-OpenGL)

A shallow embedding of `Source/SceneManager.cpp` (the only implementation file
of the repository).  Pure bookkeeping (the texture registry, the material
registry and the tag lookups) is translated into executable Lean functions on
an explicit state record; the GLSL-uniform writes and mesh draw submissions
performed through the external `ShaderManager` / `ShapeMeshes` libraries are
modelled as an explicit trace of `Event`s.  C++ `float` arithmetic is modelled
over `ℝ`; `GLuint` texture handles are modelled as `Nat` (handles produced by
`glGenTextures`), and C++ `int` results as `Int`.

The class header `SceneManager.h` is not part of the sources; the shape of the
member state (`m_textureIDs` with its running count `m_loadedTextures`,
`m_objectMaterials`, `m_pShaderManager`) is reconstructed from its uses in
`SceneManager.cpp` and from the data model of the specification
(`TexturedEntry` = tag + GPU handle, `MaterialEntry` = tag + diffuse +
specular + shininess).  Registration always writes `m_textureIDs` at index
`m_loadedTextures` and then increments the count, so the register is modelled
as the list of its first `m_loadedTextures` entries, appended to on success.
-/

namespace SceneMgr

/-- Outcome of `stbi_load` on one image file: either a decode failure
(`stbi_load` returned `NULL`) or a decoded pixel buffer with the reported
width, height and channel count. -/
inductive StbImage where
  | fail : StbImage
  | ok (width height colorChannels : Int) : StbImage
  deriving DecidableEq

/-- One entry of `m_textureIDs`: a GPU texture handle (`GLuint`, hence `Nat`)
together with the tag string it was registered under. -/
structure TexEntry where
  ID : Nat
  tag : String
  deriving DecidableEq

/-- A 2-component float vector (`glm::vec2`). -/
structure Vec2 where
  x : ℝ
  y : ℝ

/-- A 3-component float vector (`glm::vec3`). -/
structure Vec3 where
  x : ℝ
  y : ℝ
  z : ℝ

/-- A 4-component float vector (`glm::vec4`), accessed through the
color aliases `r`,`g`,`b`,`a` as in `SetShaderColor`. -/
structure Vec4 where
  r : ℝ
  g : ℝ
  b : ℝ
  a : ℝ

/-- `OBJECT_MATERIAL`: diffuse color, specular color, shininess and tag. -/
structure ObjectMaterial where
  diffuseColor : Vec3
  specularColor : Vec3
  shininess : ℝ
  tag : String

/-- The member state of a `SceneManager` object.  `shaderNull` records
whether `m_pShaderManager` is `NULL`; `nextTextureID` models the next handle
handed out by `glGenTextures` (successive calls return fresh handles). -/
structure SMState where
  shaderNull : Bool
  textureIDs : List TexEntry
  nextTextureID : Nat
  objectMaterials : List ObjectMaterial

/-- `m_loadedTextures`, the number of registered textures. -/
def loadedTextures (s : SMState) : Nat :=
  s.textureIDs.length

/-- State of a freshly constructed `SceneManager` with a non-null shader
manager: no textures, no materials. -/
def initialState : SMState :=
  { shaderNull := false
    textureIDs := []
    nextTextureID := 1
    objectMaterials := [] }

/-- `SceneManager::CreateGLTexture`.  The image decode outcome is supplied as
`image`.  On decode failure the function returns `false` with nothing changed.
On decode success it generates a texture handle (`glGenTextures`), uploads the
pixels when the channel count is 3 (RGB) or 4 (RGBA) and registers the handle
under `tag` at index `m_loadedTextures`, returning `true`; any other channel
count returns `false` without registering.  The GL upload, mipmap generation
and logging have no effect on the member state and are not modelled. -/
def createGLTexture (image : StbImage) (tag : String) (s : SMState) :
    Bool × SMState :=
  match image with
  | .fail => (false, s)
  | .ok _ _ colorChannels =>
    let textureID := s.nextTextureID
    let s1 := { s with nextTextureID := s.nextTextureID + 1 }
    if colorChannels = 3 ∨ colorChannels = 4 then
      (true, { s1 with textureIDs := s1.textureIDs ++ [⟨textureID, tag⟩] })
    else
      (false, s1)

/-- The `while ((index < m_loadedTextures) && (bFound == false))` scan of
`SceneManager::FindTextureID`, returning the handle of the first entry whose
tag compares equal, or the sentinel `-1`. -/
def findTextureIDAux : List TexEntry → String → Int
  | [], _ => -1
  | e :: rest, tag =>
    if e.tag = tag then (e.ID : Int) else findTextureIDAux rest tag

/-- `SceneManager::FindTextureID`. -/
def findTextureID (s : SMState) (tag : String) : Int :=
  findTextureIDAux s.textureIDs tag

/-- The scan of `SceneManager::FindTextureSlot`, returning the index of the
first entry whose tag compares equal, or the sentinel `-1`. -/
def findTextureSlotAux : List TexEntry → String → Nat → Int
  | [], _, _ => -1
  | e :: rest, tag, index =>
    if e.tag = tag then (index : Int) else findTextureSlotAux rest tag (index + 1)

/-- `SceneManager::FindTextureSlot`. -/
def findTextureSlot (s : SMState) (tag : String) : Int :=
  findTextureSlotAux s.textureIDs tag 0

/-- The scan of `SceneManager::FindMaterial`: walk the material list and, at
the first entry whose tag compares equal, copy its `diffuseColor`,
`specularColor` and `shininess` (not the tag) into the out-parameter
`material`; if no entry matches, the out-parameter is left untouched. -/
def findMaterialAux : List ObjectMaterial → String → ObjectMaterial → ObjectMaterial
  | [], _, material => material
  | m :: rest, tag, material =>
    if m.tag = tag then
      { material with
          diffuseColor := m.diffuseColor
          specularColor := m.specularColor
          shininess := m.shininess }
    else
      findMaterialAux rest tag material

/-- `SceneManager::FindMaterial`.  Returns the pair of the C++ return value
and the final value of the by-reference out-parameter `material`.  The
function returns `false` only when `m_objectMaterials.size() == 0`; otherwise
it runs the scan and returns `true` whether or not any tag matched. -/
def findMaterial (s : SMState) (tag : String) (material : ObjectMaterial) :
    Bool × ObjectMaterial :=
  if s.objectMaterials.length = 0 then
    (false, material)
  else
    (true, findMaterialAux s.objectMaterials tag material)

/-- 4x4 float matrices (`glm::mat4`), written as mathematical matrices: the
entry `M i j` is row `i`, column `j`, and `glm`'s column-major component
`M[c][r]` is the mathematical entry at row `r`, column `c`, so `glm`'s
`operator*` is ordinary matrix multiplication. -/
abbrev Mat4 : Type := Matrix (Fin 4) (Fin 4) ℝ

/-- `glm::radians`: degrees-to-radians conversion. -/
noncomputable def glm_radians (degrees : ℝ) : ℝ :=
  degrees * (Real.pi / 180)

/-- `glm::scale(v)`: the identity matrix with `v` on the diagonal. -/
noncomputable def glm_scale (v : Vec3) : Mat4 :=
  !![v.x, 0, 0, 0;
     0, v.y, 0, 0;
     0, 0, v.z, 0;
     0, 0, 0, 1]

/-- `glm::translate(v)`: the identity matrix with `v` in the fourth
(translation) column. -/
noncomputable def glm_translate (v : Vec3) : Mat4 :=
  !![1, 0, 0, v.x;
     0, 1, 0, v.y;
     0, 0, 1, v.z;
     0, 0, 0, 1]

/-- `glm::length(v)` for a 3-component vector. -/
noncomputable def glm_length (v : Vec3) : ℝ :=
  Real.sqrt (v.x * v.x + v.y * v.y + v.z * v.z)

/-- `glm::normalize(v)` for a 3-component vector. -/
noncomputable def glm_normalize (v : Vec3) : Vec3 :=
  ⟨v.x / glm_length v, v.y / glm_length v, v.z / glm_length v⟩

/-- `glm::rotate(angle, v)` (angle in radians): glm normalizes the axis and
builds the Rodrigues rotation matrix; glm's column-major components
`Rotate[c][r]` are transcribed here at row `r`, column `c`. -/
noncomputable def glm_rotate (angle : ℝ) (v : Vec3) : Mat4 :=
  let c := Real.cos angle
  let s := Real.sin angle
  let axis := glm_normalize v
  let tx := (1 - c) * axis.x
  let ty := (1 - c) * axis.y
  let tz := (1 - c) * axis.z
  !![c + tx * axis.x, ty * axis.x - s * axis.z, tz * axis.x + s * axis.y, 0;
     tx * axis.y + s * axis.z, c + ty * axis.y, tz * axis.y - s * axis.x, 0;
     tx * axis.z - s * axis.y, ty * axis.z + s * axis.x, c + tz * axis.z, 0;
     0, 0, 0, 1]

/-- The face selector of `ShapeMeshes::DrawBoxMeshSide`. -/
inductive BoxSide where
  | front | back | left | right | top | bottom
  deriving DecidableEq

/-- One observable effect on the rendering pipeline: a named-uniform write
through the `ShaderManager` setter interface, or a draw submission through
the `ShapeMeshes` interface. -/
inductive Event where
  | setMat4Value (name : String) (value : Mat4)
  | setIntValue (name : String) (value : Int)
  | setFloatValue (name : String) (value : ℝ)
  | setBoolValue (name : String) (value : Bool)
  | setVec2Value (name : String) (value : Vec2)
  | setVec3Value (name : String) (value : Vec3)
  | setVec4Value (name : String) (value : Vec4)
  | setSampler2DValue (name : String) (value : Int)
  | drawPlaneMesh
  | drawBoxMesh
  | drawBoxMeshSide (side : BoxSide)
  | drawCylinderMesh (bDrawTop bDrawBottom bDrawSides : Bool)
  | drawSphereMesh
  | drawHalfSphereMesh
  | drawTorusMesh
  | drawTaperedCylinderMesh

/-- `g_ModelName`, the name of the model-matrix uniform. -/
def g_ModelName : String := "model"

/-- `g_ColorValueName`. -/
def g_ColorValueName : String := "objectColor"

/-- `g_TextureValueName`. -/
def g_TextureValueName : String := "objectTexture"

/-- `g_UseTextureName`. -/
def g_UseTextureName : String := "bUseTexture"

/-- `g_UseLightingName`. -/
def g_UseLightingName : String := "bUseLighting"

/-- `SceneManager::SetTransformations`: build
`translation * rotationZ * rotationY * rotationX * scale` from the scale
vector, the per-axis rotation angles in degrees (converted to radians here)
and the position vector, and write it to the `"model"` uniform when the
shader manager is non-null.  No member state is written. -/
noncomputable def setTransformations (scaleXYZ : Vec3)
    (XrotationDegrees YrotationDegrees ZrotationDegrees : ℝ)
    (positionXYZ : Vec3) (s : SMState) : SMState × List Event :=
  let scale := glm_scale scaleXYZ
  let rotationX := glm_rotate (glm_radians XrotationDegrees) ⟨1, 0, 0⟩
  let rotationY := glm_rotate (glm_radians YrotationDegrees) ⟨0, 1, 0⟩
  let rotationZ := glm_rotate (glm_radians ZrotationDegrees) ⟨0, 0, 1⟩
  let translation := glm_translate positionXYZ
  let modelView := translation * rotationZ * rotationY * rotationX * scale
  (s, if s.shaderNull then [] else [.setMat4Value g_ModelName modelView])

/-- `SceneManager::SetShaderColor`: when the shader manager is non-null, set
the use-texture flag uniform to `false` (the C++ `bool` passed to
`setIntValue` converts to `0`) and write the RGBA color to the object-color
uniform.  No member state is written. -/
noncomputable def setShaderColor (redColorValue greenColorValue blueColorValue
    alphaValue : ℝ) (s : SMState) : SMState × List Event :=
  let currentColor : Vec4 :=
    ⟨redColorValue, greenColorValue, blueColorValue, alphaValue⟩
  (s, if s.shaderNull then []
      else [.setIntValue g_UseTextureName 0,
            .setVec4Value g_ColorValueName currentColor])

/-- `SceneManager::SetShaderTexture`: when the shader manager is non-null,
set the use-texture flag uniform to `true` (the C++ `bool` converts to `1`)
and pass `FindTextureSlot(textureTag)` to the sampler uniform.  No member
state is written. -/
def setShaderTexture (textureTag : String) (s : SMState) :
    SMState × List Event :=
  (s, if s.shaderNull then []
      else [.setIntValue g_UseTextureName 1,
            .setSampler2DValue g_TextureValueName (findTextureSlot s textureTag)])

/-- `SceneManager::SetTextureUVScale`. -/
def setTextureUVScale (u v : ℝ) (s : SMState) : SMState × List Event :=
  (s, if s.shaderNull then [] else [.setVec2Value "UVscale" ⟨u, v⟩])

/-- `SceneManager::SetShaderMaterial`: when at least one material is defined,
declare an uninitialized local `OBJECT_MATERIAL` (its indeterminate initial
value is the parameter `localInit`), run `FindMaterial` on it and, when that
returns `true`, forward the local's diffuse color, specular color and
shininess to the material uniforms.  No member state is written. -/
def setShaderMaterial (materialTag : String) (localInit : ObjectMaterial)
    (s : SMState) : SMState × List Event :=
  (s, if s.objectMaterials.length > 0 then
        let result := findMaterial s materialTag localInit
        if result.1 = true then
          [.setVec3Value "material.diffuseColor" result.2.diffuseColor,
           .setVec3Value "material.specularColor" result.2.specularColor,
           .setFloatValue "material.shininess" result.2.shininess]
        else []
      else [])

/-- `SceneManager::LoadSceneTextures`: the eleven `CreateGLTexture` calls of
the source in order, with the decode outcome of each image path supplied by
`disk`; the returned booleans are assigned to a local and otherwise ignored,
exactly as in the source.  The final `BindGLTextures` call binds each
registered texture to its slot (`glActiveTexture`/`glBindTexture`), which
touches no member state and writes no uniform. -/
def loadSceneTextures (disk : String → StbImage) (s : SMState) : SMState :=
  let s := (createGLTexture (disk "textures/black_marble.jpg") "box" s).2
  let s := (createGLTexture (disk "textures/cement.jpg") "potBody" s).2
  let s := (createGLTexture (disk "textures/cement.jpg") "potRim" s).2
  let s := (createGLTexture (disk "textures/cement.jpg") "potSphereBottom" s).2
  let s := (createGLTexture (disk "textures/dirt.jpg") "potDirt" s).2
  let s := (createGLTexture (disk "textures/bricks_white_seamless.jpg") "backsplash" s).2
  let s := (createGLTexture (disk "textures/marble_light_seamless.jpg") "counter" s).2
  let s := (createGLTexture (disk "textures/green_texture.jpg") "stem" s).2
  let s := (createGLTexture (disk "textures/green_texture.jpg") "leaf" s).2
  let s := (createGLTexture (disk "textures/metal.jpg") "metal" s).2
  let s := (createGLTexture (disk "textures/plastic_dark_seamless.png") "plastic" s).2
  s

/-- The `cementMaterial` literal of `DefineObjectMaterials`. -/
noncomputable def cementMaterial : ObjectMaterial :=
  ⟨⟨0.5, 0.5, 0.5⟩, ⟨0.4, 0.4, 0.4⟩, 0.5, "cement"⟩

/-- The `tileMaterial` literal of `DefineObjectMaterials`. -/
noncomputable def tileMaterial : ObjectMaterial :=
  ⟨⟨0.3, 0.2, 0.1⟩, ⟨0.4, 0.5, 0.6⟩, 25, "tile"⟩

/-- The `marbleMaterial` literal of `DefineObjectMaterials`. -/
noncomputable def marbleMaterial : ObjectMaterial :=
  ⟨⟨0.6, 0.6, 0.6⟩, ⟨0.3, 0.4, 0.4⟩, 28, "marble"⟩

/-- The `dirtMaterial` literal of `DefineObjectMaterials`. -/
noncomputable def dirtMaterial : ObjectMaterial :=
  ⟨⟨0.5, 0.5, 0.5⟩, ⟨0.1, 0.1, 0.1⟩, 0.3, "dirt"⟩

/-- The `metalMaterial` literal of `DefineObjectMaterials`. -/
noncomputable def metalMaterial : ObjectMaterial :=
  ⟨⟨0.5, 0.4, 0.4⟩, ⟨0.4, 0.4, 0.4⟩, 24, "metal"⟩

/-- The `glassMaterial` literal of `DefineObjectMaterials`. -/
noncomputable def glassMaterial : ObjectMaterial :=
  ⟨⟨0.9, 0.9, 0.9⟩, ⟨1, 1, 1⟩, 95, "glass"⟩

/-- The `plasticMaterial` literal of `DefineObjectMaterials`. -/
noncomputable def plasticMaterial : ObjectMaterial :=
  ⟨⟨0.9, 0.9, 0.9⟩, ⟨0.3, 0.3, 0.3⟩, 20, "plastic"⟩

/-- The seven materials pushed by `DefineObjectMaterials`, in `push_back`
order. -/
noncomputable def sceneMaterials : List ObjectMaterial :=
  [cementMaterial, tileMaterial, marbleMaterial, dirtMaterial,
   metalMaterial, glassMaterial, plasticMaterial]

/-- `SceneManager::DefineObjectMaterials`: push the seven material literals
onto `m_objectMaterials`. -/
noncomputable def defineObjectMaterials (s : SMState) : SMState :=
  { s with objectMaterials := s.objectMaterials ++ sceneMaterials }

/-- `SceneManager::SetupSceneLights`: the fixed sequence of light-uniform
writes (the method calls `m_pShaderManager` without a null check).  No member
state is written. -/
noncomputable def setupSceneLights (s : SMState) : SMState × List Event :=
  (s,
   [.setBoolValue g_UseLightingName true,
    .setVec3Value "directionalLight.direction" ⟨1, 1, 1⟩,
    .setVec3Value "directionalLight.ambient" ⟨0.52, 0.56, 0.5⟩,
    .setVec3Value "directionalLight.diffuse" ⟨0.6, 0.6, 0.6⟩,
    .setVec3Value "directionalLight.specular" ⟨0, 0, 0⟩,
    .setBoolValue "directionalLight.bActive" true,
    .setVec3Value "pointLights[0].position" ⟨-4, 8, 0⟩,
    .setVec3Value "pointLights[0].ambient" ⟨0.05, 0.05, 0.05⟩,
    .setVec3Value "pointLights[0].diffuse" ⟨0.3, 0.3, 0.3⟩,
    .setVec3Value "pointLights[0].specular" ⟨0.1, 0.1, 0.1⟩,
    .setBoolValue "pointLights[0].bActive" true,
    .setVec3Value "pointLights[1].position" ⟨4, 8, 0⟩,
    .setVec3Value "pointLights[1].ambient" ⟨0.05, 0.05, 0.05⟩,
    .setVec3Value "pointLights[1].diffuse" ⟨0.3, 0.3, 0.3⟩,
    .setVec3Value "pointLights[1].specular" ⟨0.1, 0.1, 0.1⟩,
    .setBoolValue "pointLights[1].bActive" true,
    .setVec3Value "pointLights[2].position" ⟨3.8, 5.5, 4⟩,
    .setVec3Value "pointLights[2].ambient" ⟨0.05, 0.05, 0.05⟩,
    .setVec3Value "pointLights[2].diffuse" ⟨0.2, 0.2, 0.2⟩,
    .setVec3Value "pointLights[2].specular" ⟨0.8, 0.8, 0.8⟩,
    .setBoolValue "pointLights[2].bActive" true])

/-- `SceneManager::PrepareScene`: load the scene textures, define the
materials, configure the lights; the `ShapeMeshes::Load*Mesh` calls build
vertex buffers in the external mesh library and touch neither the member
state nor the shader uniforms. -/
noncomputable def prepareScene (disk : String → StbImage) (s : SMState) :
    SMState × List Event :=
  let s1 := loadSceneTextures disk s
  let s2 := defineObjectMaterials s1
  setupSceneLights s2

/-- `ShapeMeshes::DrawPlaneMesh`: one draw submission, no member state. -/
def drawPlaneMesh (s : SMState) : SMState × List Event :=
  (s, [.drawPlaneMesh])

/-- `ShapeMeshes::DrawBoxMesh`. -/
def drawBoxMesh (s : SMState) : SMState × List Event :=
  (s, [.drawBoxMesh])

/-- `ShapeMeshes::DrawBoxMeshSide`. -/
def drawBoxMeshSide (side : BoxSide) (s : SMState) : SMState × List Event :=
  (s, [.drawBoxMeshSide side])

/-- `ShapeMeshes::DrawCylinderMesh`; the source's argument-free calls use the
external header's defaults of `true` for all three cap/side flags. -/
def drawCylinderMesh (bDrawTop bDrawBottom bDrawSides : Bool) (s : SMState) :
    SMState × List Event :=
  (s, [.drawCylinderMesh bDrawTop bDrawBottom bDrawSides])

/-- `ShapeMeshes::DrawSphereMesh`. -/
def drawSphereMesh (s : SMState) : SMState × List Event :=
  (s, [.drawSphereMesh])

/-- `ShapeMeshes::DrawHalfSphereMesh`. -/
def drawHalfSphereMesh (s : SMState) : SMState × List Event :=
  (s, [.drawHalfSphereMesh])

/-- `ShapeMeshes::DrawTorusMesh`. -/
def drawTorusMesh (s : SMState) : SMState × List Event :=
  (s, [.drawTorusMesh])

/-- `ShapeMeshes::DrawTaperedCylinderMesh`. -/
def drawTaperedCylinderMesh (s : SMState) : SMState × List Event :=
  (s, [.drawTaperedCylinderMesh])

/-- Sequence one more method call onto a partial run: feed it the state so
far and append its events to the trace so far. -/
def step (r : SMState × List Event) (f : SMState → SMState × List Event) :
    SMState × List Event :=
  ((f r.1).1, r.2 ++ (f r.1).2)

/-- `SceneManager::RenderScene`: the fixed scene script, every call in source
order with its literal arguments.  Each `SetShaderMaterial` call declares its
own uninitialized local `OBJECT_MATERIAL`; the indeterminate initial value of
such a local is supplied as `localInit`. -/
noncomputable def renderScene (localInit : ObjectMaterial) (s0 : SMState) :
    SMState × List Event :=
  -- countertop plane
  let r := (s0, ([] : List Event))
  let r := step r (setTransformations ⟨20, 1, 10⟩ 0 0 0 ⟨0, 0, 0⟩)
  let r := step r (setShaderTexture "counter")
  let r := step r (setShaderMaterial "marble" localInit)
  let r := step r drawPlaneMesh
  -- backdrop plane for the kitchen tile/wall
  let r := step r (setTransformations ⟨20, 1, 10⟩ 90 0 0 ⟨0, 10, -10⟩)
  let r := step r (setShaderTexture "backsplash")
  let r := step r (setShaderMaterial "tile" localInit)
  let r := step r drawPlaneMesh
  -- box for the tray that sits under items
  let r := step r (setTransformations ⟨15, 1, 9⟩ 0 0 0 ⟨3, 1, -5⟩)
  let r := step r (setShaderTexture "box")
  let r := step r (setShaderMaterial "marble" localInit)
  let r := step r drawBoxMesh
  -- sphere for the bottom of the pot
  let r := step r (setTransformations ⟨3, 2, 3⟩ 0 0 0 ⟨6, 3, -4⟩)
  let r := step r (setShaderTexture "potSphereBottom")
  let r := step r (setShaderMaterial "cement" localInit)
  let r := step r drawSphereMesh
  -- cylinder for the body of the pot
  let r := step r (setTransformations ⟨3, 4, 3⟩ 0 0 0 ⟨6, 3, -4⟩)
  let r := step r (setShaderTexture "potDirt")
  let r := step r (setShaderMaterial "dirt" localInit)
  let r := step r (drawCylinderMesh true false false)
  let r := step r (setShaderTexture "potBody")
  let r := step r (setShaderMaterial "cement" localInit)
  let r := step r (drawCylinderMesh false true true)
  -- torus for the rim
  let r := step r (setTransformations ⟨2.5, 2.6, 2⟩ 90 0 0 ⟨6, 7, -4⟩)
  let r := step r (setShaderTexture "potRim")
  let r := step r (setShaderMaterial "cement" localInit)
  let r := step r drawTorusMesh
  -- cylinders for plant stems
  let r := step r (setTransformations ⟨0.1, 8, 0.1⟩ 0 0 0 ⟨6, 2, -4⟩)
  let r := step r (setShaderTexture "stem")
  let r := step r (drawCylinderMesh true true true)
  let r := step r (setTransformations ⟨0.1, 8, 0.1⟩ 10 0 0 ⟨6, 2, -4⟩)
  let r := step r (setShaderTexture "stem")
  let r := step r (drawCylinderMesh true true true)
  let r := step r (setTransformations ⟨0.1, 8, 0.1⟩ 10 0 0 ⟨6.5, 2, -4.1⟩)
  let r := step r (setShaderTexture "stem")
  let r := step r (drawCylinderMesh true true true)
  let r := step r (setTransformations ⟨0.1, 9, 0.1⟩ 10 0 0 ⟨5.8, 2, -3.7⟩)
  let r := step r (setShaderTexture "stem")
  let r := step r (drawCylinderMesh true true true)
  let r := step r (setTransformations ⟨0.1, 8, 0.1⟩ 10 0 0 ⟨5.3, 2, -3.7⟩)
  let r := step r (setShaderTexture "stem")
  let r := step r (drawCylinderMesh true true true)
  -- half spheres for leaves
  let r := step r (setTransformations ⟨0.3, 0.05, 0.1⟩ 90 0 0 ⟨5.8, 7.8, -4⟩)
  let r := step r (setShaderTexture "leaf")
  let r := step r drawHalfSphereMesh
  let r := step r (setTransformations ⟨0.3, 0.05, 0.1⟩ 90 0 0 ⟨5.75, 9.1, -4⟩)
  let r := step r (setShaderTexture "leaf")
  let r := step r drawHalfSphereMesh
  let r := step r (setTransformations ⟨0.25, 0.05, 0.1⟩ 90 0 0 ⟨5.8, 8.3, -4⟩)
  let r := step r (setShaderTexture "leaf")
  let r := step r drawHalfSphereMesh
  let r := step r (setTransformations ⟨0.3, 0.05, 0.1⟩ 90 0 0 ⟨5.8, 9.9, -4⟩)
  let r := step r (setShaderTexture "leaf")
  let r := step r drawHalfSphereMesh
  let r := step r (setTransformations ⟨0.25, 0.05, 0.1⟩ 90 1 0 ⟨6.2, 9.8, -4⟩)
  let r := step r (setShaderTexture "leaf")
  let r := step r drawHalfSphereMesh
  let r := step r (setTransformations ⟨0.3, 0.05, 0.1⟩ 90 10 4 ⟨6.25, 8.1, -4⟩)
  let r := step r (setShaderTexture "leaf")
  let r := step r drawHalfSphereMesh
  let r := step r (setTransformations ⟨0.25, 0.1, 0.1⟩ 90 10 4 ⟨5.8, 8.9, -4⟩)
  let r := step r (setShaderTexture "leaf")
  let r := step r drawHalfSphereMesh
  let r := step r (setTransformations ⟨0.2, 0.05, 0.1⟩ 90 0 4 ⟨6.25, 8.5, -4⟩)
  let r := step r (setShaderTexture "leaf")
  let r := step r drawHalfSphereMesh
  -- box for the clock: back, top, bottom, left and right sides
  let r := step r (setTransformations ⟨3, 3, 3⟩ 0 0 0 ⟨1, 3, -3.07⟩)
  let r := step r (setShaderTexture "plastic")
  let r := step r (setShaderMaterial "plastic" localInit)
  let r := step r (drawBoxMeshSide .back)
  let r := step r (setShaderTexture "plastic")
  let r := step r (setShaderMaterial "plastic" localInit)
  let r := step r (drawBoxMeshSide .top)
  let r := step r (setShaderTexture "plastic")
  let r := step r (setShaderMaterial "plastic" localInit)
  let r := step r (drawBoxMeshSide .bottom)
  let r := step r (setShaderTexture "plastic")
  let r := step r (setShaderMaterial "plastic" localInit)
  let r := step r (drawBoxMeshSide .left)
  let r := step r (setShaderTexture "plastic")
  let r := step r (setShaderMaterial "plastic" localInit)
  let r := step r (drawBoxMeshSide .right)
  -- box for the clock: flat-colored front face, then the full box
  let r := step r (setTransformations ⟨3, 3, 3⟩ 0 0 0 ⟨1, 3, -3.6⟩)
  let r := step r (setShaderColor 1 1 1 1)
  let r := step r (setShaderMaterial "plastic" localInit)
  let r := step r (drawBoxMeshSide .front)
  let r := step r (setShaderTexture "plastic")
  let r := step r (setShaderMaterial "plastic" localInit)
  let r := step r drawBoxMesh
  -- half sphere for the clock
  let r := step r (setTransformations ⟨0.2, 0.1, 0.2⟩ 90 0 0 ⟨1, 3, -2⟩)
  let r := step r (setShaderTexture "plastic")
  let r := step r drawHalfSphereMesh
  -- cylinders for the clock hands
  let r := step r (setTransformations ⟨0.05, 1.2, 0.05⟩ 0 0 0 ⟨1, 3.1, -2⟩)
  let r := step r (setShaderTexture "plastic")
  let r := step r (drawCylinderMesh true true true)
  let r := step r (setTransformations ⟨0.05, 1.1, 0.05⟩ 90 90 0 ⟨1, 3, -2⟩)
  let r := step r (setShaderTexture "plastic")
  let r := step r (drawCylinderMesh true true true)
  -- first salt shaker: body, tapered top, metal cap cylinder and half sphere
  let r := step r (setTransformations ⟨0.5, 1, 0.5⟩ 0 0 0 ⟨8.7, 1.5, -1.5⟩)
  let r := step r (setShaderColor 1 1 1 0.3)
  let r := step r (setShaderMaterial "glass" localInit)
  let r := step r (drawCylinderMesh true true true)
  let r := step r (setTransformations ⟨0.5, 0.5, 0.5⟩ 0 0 0 ⟨8.7, 2.5, -1.5⟩)
  let r := step r (setShaderColor 1 1 1 0.3)
  let r := step r (setShaderMaterial "glass" localInit)
  let r := step r drawTaperedCylinderMesh
  let r := step r (setTransformations ⟨0.3, 0.2, 0.2⟩ 0 0 0 ⟨8.7, 3, -1.5⟩)
  let r := step r (setShaderTexture "metal")
  let r := step r (setShaderMaterial "metal" localInit)
  let r := step r (drawCylinderMesh true true true)
  let r := step r (setTransformations ⟨0.3, 0.2, 0.2⟩ 0 0 0 ⟨8.7, 3.2, -1.5⟩)
  let r := step r (setShaderTexture "metal")
  let r := step r (setShaderMaterial "metal" localInit)
  let r := step r drawHalfSphereMesh
  -- second salt shaker: body, tapered top, metal cap cylinder and half sphere
  let r := step r (setTransformations ⟨0.5, 1, 0.5⟩ 0 0 0 ⟨9.9, 1.5, -1.5⟩)
  let r := step r (setShaderColor 1 1 1 0.3)
  let r := step r (setShaderMaterial "glass" localInit)
  let r := step r (drawCylinderMesh true true true)
  let r := step r (setTransformations ⟨0.5, 0.5, 0.5⟩ 0 0 0 ⟨9.9, 2.5, -1.5⟩)
  let r := step r (setShaderColor 1 1 1 0.3)
  let r := step r (setShaderMaterial "glass" localInit)
  let r := step r drawTaperedCylinderMesh
  let r := step r (setTransformations ⟨0.3, 0.2, 0.2⟩ 0 0 0 ⟨9.9, 3, -1.5⟩)
  let r := step r (setShaderTexture "metal")
  let r := step r (setShaderMaterial "metal" localInit)
  let r := step r (drawCylinderMesh true true true)
  let r := step r (setTransformations ⟨0.3, 0.2, 0.2⟩ 0 0 0 ⟨9.9, 3.2, -1.5⟩)
  let r := step r (setShaderTexture "metal")
  let r := step r (setShaderMaterial "metal" localInit)
  let r := step r drawHalfSphereMesh
  r

/-! Auxiliary definitions for stating the claims: the textbook single-axis
rotation matrices the specification describes, a store of named shader
uniforms driven by the event trace, a fold over a sequence of texture loads,
and the concrete inputs used by the witnesses. -/

/-- The canonical rotation matrix about the X axis by `θ` radians, as the
specification describes the X-rotation factor. -/
noncomputable def rotationXMatrix (θ : ℝ) : Mat4 :=
  !![1, 0, 0, 0;
     0, Real.cos θ, -Real.sin θ, 0;
     0, Real.sin θ, Real.cos θ, 0;
     0, 0, 0, 1]

/-- The canonical rotation matrix about the Y axis by `θ` radians. -/
noncomputable def rotationYMatrix (θ : ℝ) : Mat4 :=
  !![Real.cos θ, 0, Real.sin θ, 0;
     0, 1, 0, 0;
     -Real.sin θ, 0, Real.cos θ, 0;
     0, 0, 0, 1]

/-- The canonical rotation matrix about the Z axis by `θ` radians. -/
noncomputable def rotationZMatrix (θ : ℝ) : Mat4 :=
  !![Real.cos θ, -Real.sin θ, 0, 0;
     Real.sin θ, Real.cos θ, 0, 0;
     0, 0, 1, 0;
     0, 0, 0, 1]

/-- A value held by a named shader uniform. -/
inductive UniformValue where
  | int (v : Int)
  | float (v : ℝ)
  | bool (v : Bool)
  | vec2 (v : Vec2)
  | vec3 (v : Vec3)
  | vec4 (v : Vec4)
  | mat4 (v : Mat4)
  | sampler2D (v : Int)

/-- The state of the active shader's named uniforms. -/
def UniformStore : Type := String → Option UniformValue

/-- Apply one event to the uniform store: each setter overwrites the uniform
it names; draw submissions leave the uniforms unchanged. -/
def applyEvent (u : UniformStore) : Event → UniformStore
  | .setMat4Value name v => fun n => if n = name then some (.mat4 v) else u n
  | .setIntValue name v => fun n => if n = name then some (.int v) else u n
  | .setFloatValue name v => fun n => if n = name then some (.float v) else u n
  | .setBoolValue name v => fun n => if n = name then some (.bool v) else u n
  | .setVec2Value name v => fun n => if n = name then some (.vec2 v) else u n
  | .setVec3Value name v => fun n => if n = name then some (.vec3 v) else u n
  | .setVec4Value name v => fun n => if n = name then some (.vec4 v) else u n
  | .setSampler2DValue name v => fun n => if n = name then some (.sampler2D v) else u n
  | .drawPlaneMesh => u
  | .drawBoxMesh => u
  | .drawBoxMeshSide _ => u
  | .drawCylinderMesh _ _ _ => u
  | .drawSphereMesh => u
  | .drawHalfSphereMesh => u
  | .drawTorusMesh => u
  | .drawTaperedCylinderMesh => u

/-- Apply a trace of events to the uniform store, oldest first. -/
def applyEvents (u : UniformStore) (events : List Event) : UniformStore :=
  events.foldl applyEvent u

/-- Whether `CreateGLTexture` succeeds on this decode outcome: the image
decodes and its channel count is 3 or 4. -/
def loadOK : StbImage → Bool
  | .fail => false
  | .ok _ _ c => c = 3 || c = 4

/-- Run a sequence of `CreateGLTexture` calls (decode outcome and tag for
each), discarding the returned booleans as `LoadSceneTextures` does. -/
def loadAll : List (StbImage × String) → SMState → SMState
  | [], s => s
  | p :: rest, s => loadAll rest (createGLTexture p.1 p.2 s).2

/-- The scan of `FindTextureSlot` expressed on the registered tags alone. -/
def slotScan : List String → String → Nat → Int
  | [], _, _ => -1
  | t :: rest, tag, index =>
    if t = tag then (index : Int) else slotScan rest tag (index + 1)

/-- The events `SetShaderMaterial` sends for a found material. -/
noncomputable def materialEvents (m : ObjectMaterial) : List Event :=
  [.setVec3Value "material.diffuseColor" m.diffuseColor,
   .setVec3Value "material.specularColor" m.specularColor,
   .setFloatValue "material.shininess" m.shininess]

/-- Witness input: two successful loads with distinct tags. -/
def twoLoads : List (StbImage × String) :=
  [(.ok 64 64 3, "first"), (.ok 32 32 4, "second")]

/-- Witness input: sixteen successful loads with distinct tags, filling every
hardware texture slot. -/
def sixteenLoads : List (StbImage × String) :=
  (List.range 16).map (fun i => (.ok 64 64 3, "tex" ++ toString i))

/-- The registry state after sixteen successful loads. -/
def state16 : SMState :=
  loadAll sixteenLoads initialState

/-- An empty uniform store (no uniform has been written yet). -/
def emptyStore : UniformStore :=
  fun _ => none

/-! ## Helper lemmas on the registries -/

theorem findTextureIDAux_eq_neg_one_iff (l : List TexEntry) (tag : String) :
    findTextureIDAux l tag = -1 ↔ ∀ e ∈ l, e.tag ≠ tag := by
  induction l with
  | nil => simp [findTextureIDAux]
  | cons e rest ih =>
    by_cases h : e.tag = tag
    · simp only [findTextureIDAux, if_pos h, List.forall_mem_cons]
      constructor
      · intro hID
        exact absurd hID (by omega)
      · intro hall
        exact absurd h hall.1
    · simp only [findTextureIDAux, if_neg h, List.forall_mem_cons, ih]
      tauto

theorem findTextureSlotAux_eq_neg_one_iff (l : List TexEntry) (tag : String)
    (index : Nat) :
    findTextureSlotAux l tag index = -1 ↔ ∀ e ∈ l, e.tag ≠ tag := by
  induction l generalizing index with
  | nil => simp [findTextureSlotAux]
  | cons e rest ih =>
    by_cases h : e.tag = tag
    · simp only [findTextureSlotAux, if_pos h, List.forall_mem_cons]
      constructor
      · intro hIdx
        exact absurd hIdx (by omega)
      · intro hall
        exact absurd h hall.1
    · simp only [findTextureSlotAux, if_neg h, List.forall_mem_cons, ih]
      tauto

theorem findMaterialAux_no_match (l : List ObjectMaterial) (tag : String)
    (material : ObjectMaterial) (h : ∀ m ∈ l, m.tag ≠ tag) :
    findMaterialAux l tag material = material := by
  induction l with
  | nil => rfl
  | cons m rest ih =>
    rw [List.forall_mem_cons] at h
    rw [findMaterialAux, if_neg h.1]
    exact ih h.2

/-! ## Claim theorems on the material registry -/

/-- C2: `FindMaterial` returns `false` exactly on an empty material registry;
as soon as at least one material is defined it returns `true` for every
queried tag, matching or not. -/
theorem findMaterial_success_iff_nonempty (s : SMState) (tag : String)
    (material : ObjectMaterial) :
    (s.objectMaterials = [] → (findMaterial s tag material).1 = false) ∧
    (s.objectMaterials ≠ [] → (findMaterial s tag material).1 = true) := by
  constructor
  · intro h
    simp [findMaterial, h]
  · intro h
    simp [findMaterial, List.length_eq_zero, h]

/-- Witness for C2 at concrete inputs: with only `cementMaterial` registered,
looking up the never-registered tag `"zzz"` still reports success. -/
theorem findMaterial_success_iff_nonempty_witness :
    (findMaterial { initialState with objectMaterials := [cementMaterial] }
        "zzz" cementMaterial).1 = true :=
  (findMaterial_success_iff_nonempty
    { initialState with objectMaterials := [cementMaterial] } "zzz"
    cementMaterial).2 (by simp)

/-- C10: on a non-empty registry with no matching tag, `FindMaterial` returns
`true` and leaves the out-parameter exactly as supplied, so
`SetShaderMaterial` forwards the uninitialized local's diffuse color,
specular color and shininess to the shader unchanged. -/
theorem findMaterial_no_match_keeps_material (s : SMState) (tag : String)
    (localInit : ObjectMaterial) (hne : s.objectMaterials ≠ [])
    (hnm : ∀ m ∈ s.objectMaterials, m.tag ≠ tag) :
    findMaterial s tag localInit = (true, localInit) ∧
    (setShaderMaterial tag localInit s).2 = materialEvents localInit := by
  have hfind : findMaterial s tag localInit = (true, localInit) := by
    rw [findMaterial, if_neg (by simpa [List.length_eq_zero] using hne),
      findMaterialAux_no_match s.objectMaterials tag localInit hnm]
  refine ⟨hfind, ?_⟩
  rw [setShaderMaterial]
  rw [if_pos (by simpa [List.length_pos] using hne), hfind]
  rfl

/-- Witness for C10 at concrete inputs: querying `"zzz"` against a registry
holding only `cementMaterial` forwards the supplied `marbleMaterial` values
untouched. -/
theorem findMaterial_no_match_keeps_material_witness :
    findMaterial { initialState with objectMaterials := [cementMaterial] }
        "zzz" marbleMaterial = (true, marbleMaterial) ∧
    (setShaderMaterial "zzz" marbleMaterial
        { initialState with objectMaterials := [cementMaterial] }).2 =
      materialEvents marbleMaterial :=
  findMaterial_no_match_keeps_material
    { initialState with objectMaterials := [cementMaterial] } "zzz"
    marbleMaterial (by simp) (by simp [cementMaterial])

/-! ## Claim theorems on the texture lookups -/

/-- C9: `FindTextureID` and `FindTextureSlot` return the sentinel `-1`
exactly when no registered texture carries the queried tag; for a registered
tag they return the first matching entry's handle respectively slot, never
`-1`. -/
theorem findTexture_sentinel_iff_absent (s : SMState) (tag : String) :
    (findTextureID s tag = -1 ↔ ∀ e ∈ s.textureIDs, e.tag ≠ tag) ∧
    (findTextureSlot s tag = -1 ↔ ∀ e ∈ s.textureIDs, e.tag ≠ tag) :=
  ⟨findTextureIDAux_eq_neg_one_iff s.textureIDs tag,
   findTextureSlotAux_eq_neg_one_iff s.textureIDs tag 0⟩

/-! ## Claim theorems on `CreateGLTexture` -/

/-- C5: a decoded image with a channel count other than 3 or 4 makes
`CreateGLTexture` return `false` and leaves the texture registry (entries
and count) unchanged, and a decode failure does the same. -/
theorem createGLTexture_failure_no_register (w h c : Int) (tag : String)
    (s : SMState) (hc3 : c ≠ 3) (hc4 : c ≠ 4) :
    (createGLTexture (.ok w h c) tag s).1 = false ∧
    ((createGLTexture (.ok w h c) tag s).2).textureIDs = s.textureIDs ∧
    loadedTextures (createGLTexture (.ok w h c) tag s).2 = loadedTextures s ∧
    (createGLTexture .fail tag s).1 = false ∧
    (createGLTexture .fail tag s).2 = s := by
  have hcc : ¬(c = 3 ∨ c = 4) := by tauto
  refine ⟨?_, ?_, ?_, rfl, rfl⟩ <;>
    simp [createGLTexture, hcc, loadedTextures]

/-- Witness for C5 at concrete inputs: a 2-channel image (e.g. gray+alpha)
is rejected without touching a registry that already holds one texture. -/
theorem createGLTexture_failure_no_register_witness :
    (createGLTexture (.ok 64 64 2) "gray"
        { initialState with textureIDs := [⟨1, "first"⟩] }).1 = false ∧
    ((createGLTexture (.ok 64 64 2) "gray"
        { initialState with textureIDs := [⟨1, "first"⟩] }).2).textureIDs =
      [⟨1, "first"⟩] ∧
    loadedTextures (createGLTexture (.ok 64 64 2) "gray"
        { initialState with textureIDs := [⟨1, "first"⟩] }).2 = 1 := by
  have h := createGLTexture_failure_no_register 64 64 2 "gray"
    { initialState with textureIDs := [⟨1, "first"⟩] } (by decide) (by decide)
  exact ⟨h.1, h.2.1, by rw [h.2.2.1]; rfl⟩

/-- A successful load appends exactly one entry, carrying the fresh handle
and the new tag, at the end of the register. -/
theorem createGLTexture_success_textureIDs (w h c : Int) (tag : String)
    (s : SMState) (hc : c = 3 ∨ c = 4) :
    ((createGLTexture (.ok w h c) tag s).2).textureIDs =
      s.textureIDs ++ [⟨s.nextTextureID, tag⟩] := by
  simp [createGLTexture, hc]

/-- Running a sequence of successful loads appends exactly the given tags,
in order. -/
theorem loadAll_tags (items : List (StbImage × String)) (s : SMState)
    (hok : ∀ p ∈ items, loadOK p.1 = true) :
    (loadAll items s).textureIDs.map TexEntry.tag =
      s.textureIDs.map TexEntry.tag ++ items.map Prod.snd := by
  induction items generalizing s with
  | nil => simp [loadAll]
  | cons p rest ih =>
    obtain ⟨img, tg⟩ := p
    have h1 : loadOK img = true := hok (img, tg) (List.mem_cons_self _ _)
    have hok' : ∀ q ∈ rest, loadOK q.1 = true :=
      fun q hq => hok q (List.mem_cons_of_mem _ hq)
    cases img with
    | fail => simp [loadOK] at h1
    | ok w h c =>
      have hc : c = 3 ∨ c = 4 := by simpa [loadOK] using h1
      rw [loadAll, ih _ hok', createGLTexture_success_textureIDs w h c tg s hc]
      simp

theorem findTextureSlotAux_eq_slotScan (l : List TexEntry) (tag : String)
    (index : Nat) :
    findTextureSlotAux l tag index = slotScan (l.map TexEntry.tag) tag index := by
  induction l generalizing index with
  | nil => rfl
  | cons e rest ih =>
    by_cases h : e.tag = tag <;>
      simp [findTextureSlotAux, slotScan, h, ih]

/-- On a duplicate-free tag list, the scan starting at `index` finds the
`i`-th tag at `index + i`. -/
theorem slotScan_get (L : List String) (hnd : L.Nodup) (i index : Nat)
    (hi : i < L.length) :
    slotScan L (L.get ⟨i, hi⟩) index = (index : Int) + i := by
  induction L generalizing i index with
  | nil => exact absurd hi (by simp)
  | cons a L ih =>
    rcases List.nodup_cons.mp hnd with ⟨hna, hndL⟩
    cases i with
    | zero => simp [slotScan]
    | succ j =>
      have hj : j < L.length := by simpa using hi
      have hget : (a :: L).get ⟨j + 1, hi⟩ = L.get ⟨j, hj⟩ := rfl
      have hne : a ≠ L.get ⟨j, hj⟩ := by
        intro hEq
        exact hna (hEq ▸ L.get_mem _ _)
      rw [hget, slotScan, if_neg hne, ih hndL j (index + 1) hj]
      push_cast
      ring

/-- C4: starting from a fresh registry, a sequence of successful loads with
pairwise distinct tags registers one entry per load, and afterwards
`FindTextureSlot` maps the `i`-th registered tag to slot `i`, a slot within
`[0, m_loadedTextures)`. -/
theorem loadAll_assigns_sequential_slots (items : List (StbImage × String))
    (hok : ∀ p ∈ items, loadOK p.1 = true)
    (hnd : (items.map Prod.snd).Nodup) :
    loadedTextures (loadAll items initialState) = items.length ∧
    ∀ i (hi : i < items.length),
      findTextureSlot (loadAll items initialState) (items.get ⟨i, hi⟩).2 = (i : Int) ∧
      (i : Int) < (loadedTextures (loadAll items initialState) : Int) := by
  have htags : (loadAll items initialState).textureIDs.map TexEntry.tag =
      items.map Prod.snd := by
    simpa [initialState] using loadAll_tags items initialState hok
  have hlen : loadedTextures (loadAll items initialState) = items.length := by
    have := congrArg List.length htags
    simpa [loadedTextures] using this
  refine ⟨hlen, fun i hi => ?_⟩
  have hi' : i < (items.map Prod.snd).length := by simpa using hi
  have hgettag : (items.get ⟨i, hi⟩).2 = (items.map Prod.snd).get ⟨i, hi'⟩ := by
    simp
  have := slotScan_get (items.map Prod.snd) hnd i 0 hi'
  rw [findTextureSlot, findTextureSlotAux_eq_slotScan, htags, hgettag, this]
  constructor
  · simp
  · rw [hlen]
    exact_mod_cast hi

/-- Witness for C4 at concrete inputs: after loading an RGB image tagged
`"first"` and an RGBA image tagged `"second"`, two textures are registered
and `"second"` resolves to slot 1. -/
theorem loadAll_assigns_sequential_slots_witness :
    loadedTextures (loadAll twoLoads initialState) = 2 ∧
    findTextureSlot (loadAll twoLoads initialState) "second" = 1 := by
  have h := loadAll_assigns_sequential_slots twoLoads (by decide) (by decide)
  exact ⟨h.1, (h.2 1 (by decide)).1⟩

/-- C6 (the capacity defect): `CreateGLTexture` performs no capacity check.
From a registry already holding sixteen textures — every hardware slot in
use — a seventeenth successful load is accepted (returns `true`) and
registered, pushing the count to 17 instead of being rejected; in the C++
this writes `m_textureIDs[16]`, past the end of the sixteen-entry array. -/
theorem createGLTexture_no_capacity_check :
    loadedTextures state16 = 16 ∧
    (createGLTexture (.ok 64 64 3) "seventeenth" state16).1 = true ∧
    loadedTextures (createGLTexture (.ok 64 64 3) "seventeenth" state16).2 = 17 := by
  refine ⟨by decide, by decide, by decide⟩

/-! ## Lemmas on the glm transform matrices -/

/-- The unit X axis is already normalized. -/
theorem glm_normalize_unitX : glm_normalize ⟨1, 0, 0⟩ = ⟨1, 0, 0⟩ := by
  simp [glm_normalize, glm_length]

/-- The unit Y axis is already normalized. -/
theorem glm_normalize_unitY : glm_normalize ⟨0, 1, 0⟩ = ⟨0, 1, 0⟩ := by
  simp [glm_normalize, glm_length]

/-- The unit Z axis is already normalized. -/
theorem glm_normalize_unitZ : glm_normalize ⟨0, 0, 1⟩ = ⟨0, 0, 1⟩ := by
  simp [glm_normalize, glm_length]

/-- glm's Rodrigues matrix about the X axis is the textbook X rotation. -/
theorem glm_rotate_unitX (θ : ℝ) :
    glm_rotate θ ⟨1, 0, 0⟩ = rotationXMatrix θ := by
  rw [glm_rotate, glm_normalize_unitX, rotationXMatrix]
  norm_num

/-- glm's Rodrigues matrix about the Y axis is the textbook Y rotation. -/
theorem glm_rotate_unitY (θ : ℝ) :
    glm_rotate θ ⟨0, 1, 0⟩ = rotationYMatrix θ := by
  rw [glm_rotate, glm_normalize_unitY, rotationYMatrix]
  norm_num

/-- glm's Rodrigues matrix about the Z axis is the textbook Z rotation. -/
theorem glm_rotate_unitZ (θ : ℝ) :
    glm_rotate θ ⟨0, 0, 1⟩ = rotationZMatrix θ := by
  rw [glm_rotate, glm_normalize_unitZ, rotationZMatrix]
  norm_num

/-- Rotating by an angle of 0 radians about any axis gives the identity. -/
theorem glm_rotate_zero (v : Vec3) : glm_rotate 0 v = 1 := by
  rw [glm_rotate]
  ext i j
  fin_cases i <;> fin_cases j <;>
    simp [Matrix.one_apply, Matrix.vecHead, Matrix.vecTail, Real.cos_zero,
      Real.sin_zero]

/-- Scaling by `(1,1,1)` gives the identity. -/
theorem glm_scale_one : glm_scale ⟨1, 1, 1⟩ = 1 := by
  rw [glm_scale]
  ext i j
  fin_cases i <;> fin_cases j <;>
    simp [Matrix.one_apply, Matrix.vecHead, Matrix.vecTail]

/-- Converting 0 degrees gives 0 radians. -/
theorem glm_radians_zero : glm_radians 0 = 0 := by
  simp [glm_radians]

/-! ## Claim theorems on `SetTransformations` -/

/-- C1: with a non-null shader manager, `SetTransformations` writes to the
`"model"` uniform exactly the product
`translation * rotateZ * rotateY * rotateX * scale`, where each rotation
factor is the textbook single-axis rotation by the supplied angle converted
from degrees to radians, and nothing else. -/
theorem setTransformations_model_matrix (scaleXYZ : Vec3)
    (xr yr zr : ℝ) (positionXYZ : Vec3) (s : SMState)
    (hs : s.shaderNull = false) :
    (setTransformations scaleXYZ xr yr zr positionXYZ s).2 =
      [Event.setMat4Value "model"
        (glm_translate positionXYZ *
          rotationZMatrix (glm_radians zr) *
          rotationYMatrix (glm_radians yr) *
          rotationXMatrix (glm_radians xr) *
          glm_scale scaleXYZ)] := by
  rw [setTransformations]
  simp only [glm_rotate_unitX, glm_rotate_unitY, glm_rotate_unitZ]
  rw [hs]
  rfl

/-- Witness for C1 at concrete inputs. -/
theorem setTransformations_model_matrix_witness :
    (setTransformations ⟨1, 2, 3⟩ 30 45 60 ⟨4, 5, 6⟩ initialState).2 =
      [Event.setMat4Value "model"
        (glm_translate ⟨4, 5, 6⟩ *
          rotationZMatrix (glm_radians 60) *
          rotationYMatrix (glm_radians 45) *
          rotationXMatrix (glm_radians 30) *
          glm_scale ⟨1, 2, 3⟩)] :=
  setTransformations_model_matrix ⟨1, 2, 3⟩ 30 45 60 ⟨4, 5, 6⟩ initialState rfl

/-- C8: with neutral scale `(1,1,1)` and zero rotations, `SetTransformations`
writes exactly `glm::translate(positionXYZ)` — the identity matrix with the
translation vector in its fourth column — to the model-matrix uniform. -/
theorem setTransformations_neutral_is_translation (tx ty tz : ℝ)
    (s : SMState) (hs : s.shaderNull = false) :
    (setTransformations ⟨1, 1, 1⟩ 0 0 0 ⟨tx, ty, tz⟩ s).2 =
      [Event.setMat4Value "model" (glm_translate ⟨tx, ty, tz⟩)] := by
  rw [setTransformations]
  simp only [glm_radians_zero, glm_rotate_zero, glm_scale_one, mul_one]
  rw [hs]
  rfl

/-- Witness for C8 at concrete inputs. -/
theorem setTransformations_neutral_is_translation_witness :
    (setTransformations ⟨1, 1, 1⟩ 0 0 0 ⟨7, 8, 9⟩ initialState).2 =
      [Event.setMat4Value "model" (glm_translate ⟨7, 8, 9⟩)] :=
  setTransformations_neutral_is_translation 7 8 9 initialState rfl

/-! ## Claim theorem on texture/color selection -/

/-- C7: with a non-null shader manager, after a `SetShaderTexture` call the
use-texture flag uniform holds `1` (texture selected, flat color disabled),
and after a `SetShaderColor` call it holds `0` with the supplied RGBA color
written to the object-color uniform — whatever the uniforms held before, the
flag reflects exactly the last selection. -/
theorem shader_selection_mutually_exclusive (s : SMState)
    (hs : s.shaderNull = false) (u : UniformStore) (tag : String)
    (r g b a : ℝ) :
    applyEvents u (setShaderTexture tag s).2 g_UseTextureName =
      some (.int 1) ∧
    applyEvents u (setShaderColor r g b a s).2 g_UseTextureName =
      some (.int 0) ∧
    applyEvents u (setShaderColor r g b a s).2 g_ColorValueName =
      some (.vec4 ⟨r, g, b, a⟩) := by
  rw [setShaderTexture, setShaderColor, hs]
  refine ⟨?_, ?_, ?_⟩ <;>
    simp [applyEvents, applyEvent, g_UseTextureName, g_ColorValueName,
      g_TextureValueName]

/-- Witness for C7 at concrete inputs, starting from an empty uniform
store. -/
theorem shader_selection_mutually_exclusive_witness :
    applyEvents emptyStore (setShaderTexture "counter" initialState).2
      g_UseTextureName = some (.int 1) ∧
    applyEvents emptyStore (setShaderColor 1 1 1 0.3 initialState).2
      g_UseTextureName = some (.int 0) ∧
    applyEvents emptyStore (setShaderColor 1 1 1 0.3 initialState).2
      g_ColorValueName = some (.vec4 ⟨1, 1, 1, 0.3⟩) :=
  shader_selection_mutually_exclusive initialState rfl emptyStore "counter"
    1 1 1 0.3

/-! ## `RenderScene` touches no member state -/

@[simp]
theorem setTransformations_fst (v : Vec3) (xr yr zr : ℝ) (p : Vec3)
    (s : SMState) : (setTransformations v xr yr zr p s).1 = s := rfl

@[simp]
theorem setShaderColor_fst (r g b a : ℝ) (s : SMState) :
    (setShaderColor r g b a s).1 = s := rfl

@[simp]
theorem setShaderTexture_fst (tag : String) (s : SMState) :
    (setShaderTexture tag s).1 = s := rfl

@[simp]
theorem setTextureUVScale_fst (u v : ℝ) (s : SMState) :
    (setTextureUVScale u v s).1 = s := rfl

@[simp]
theorem setShaderMaterial_fst (tag : String) (li : ObjectMaterial)
    (s : SMState) : (setShaderMaterial tag li s).1 = s := rfl

@[simp]
theorem setupSceneLights_fst (s : SMState) : (setupSceneLights s).1 = s := rfl

@[simp]
theorem drawPlaneMesh_fst (s : SMState) : (drawPlaneMesh s).1 = s := rfl

@[simp]
theorem drawBoxMesh_fst (s : SMState) : (drawBoxMesh s).1 = s := rfl

@[simp]
theorem drawBoxMeshSide_fst (side : BoxSide) (s : SMState) :
    (drawBoxMeshSide side s).1 = s := rfl

@[simp]
theorem drawCylinderMesh_fst (t b sides : Bool) (s : SMState) :
    (drawCylinderMesh t b sides s).1 = s := rfl

@[simp]
theorem drawSphereMesh_fst (s : SMState) : (drawSphereMesh s).1 = s := rfl

@[simp]
theorem drawHalfSphereMesh_fst (s : SMState) : (drawHalfSphereMesh s).1 = s := rfl

@[simp]
theorem drawTorusMesh_fst (s : SMState) : (drawTorusMesh s).1 = s := rfl

@[simp]
theorem drawTaperedCylinderMesh_fst (s : SMState) :
    (drawTaperedCylinderMesh s).1 = s := rfl

set_option maxRecDepth 4000 in
/-- `RenderScene` reads but never writes the member state. -/
theorem renderScene_fst (li : ObjectMaterial) (s : SMState) :
    (renderScene li s).1 = s := by
  simp only [renderScene, step, setTransformations_fst, setShaderColor_fst,
    setShaderTexture_fst, setShaderMaterial_fst, drawPlaneMesh_fst,
    drawBoxMesh_fst, drawBoxMeshSide_fst, drawCylinderMesh_fst,
    drawSphereMesh_fst, drawHalfSphereMesh_fst, drawTorusMesh_fst,
    drawTaperedCylinderMesh_fst]

/-! ## The scene materials match every tag used by `RenderScene` -/

theorem setShaderMaterial_scene_marble (li : ObjectMaterial) (s : SMState)
    (hm : s.objectMaterials = sceneMaterials) :
    (setShaderMaterial "marble" li s).2 = materialEvents marbleMaterial := by
  simp [setShaderMaterial, findMaterial, hm, sceneMaterials, findMaterialAux,
    cementMaterial, tileMaterial, marbleMaterial, materialEvents]

theorem setShaderMaterial_scene_tile (li : ObjectMaterial) (s : SMState)
    (hm : s.objectMaterials = sceneMaterials) :
    (setShaderMaterial "tile" li s).2 = materialEvents tileMaterial := by
  simp [setShaderMaterial, findMaterial, hm, sceneMaterials, findMaterialAux,
    cementMaterial, tileMaterial, materialEvents]

theorem setShaderMaterial_scene_cement (li : ObjectMaterial) (s : SMState)
    (hm : s.objectMaterials = sceneMaterials) :
    (setShaderMaterial "cement" li s).2 = materialEvents cementMaterial := by
  simp [setShaderMaterial, findMaterial, hm, sceneMaterials, findMaterialAux,
    cementMaterial, materialEvents]

theorem setShaderMaterial_scene_dirt (li : ObjectMaterial) (s : SMState)
    (hm : s.objectMaterials = sceneMaterials) :
    (setShaderMaterial "dirt" li s).2 = materialEvents dirtMaterial := by
  simp [setShaderMaterial, findMaterial, hm, sceneMaterials, findMaterialAux,
    cementMaterial, tileMaterial, marbleMaterial, dirtMaterial, materialEvents]

theorem setShaderMaterial_scene_metal (li : ObjectMaterial) (s : SMState)
    (hm : s.objectMaterials = sceneMaterials) :
    (setShaderMaterial "metal" li s).2 = materialEvents metalMaterial := by
  simp [setShaderMaterial, findMaterial, hm, sceneMaterials, findMaterialAux,
    cementMaterial, tileMaterial, marbleMaterial, dirtMaterial, metalMaterial,
    materialEvents]

theorem setShaderMaterial_scene_glass (li : ObjectMaterial) (s : SMState)
    (hm : s.objectMaterials = sceneMaterials) :
    (setShaderMaterial "glass" li s).2 = materialEvents glassMaterial := by
  simp [setShaderMaterial, findMaterial, hm, sceneMaterials, findMaterialAux,
    cementMaterial, tileMaterial, marbleMaterial, dirtMaterial, metalMaterial,
    glassMaterial, materialEvents]

theorem setShaderMaterial_scene_plastic (li : ObjectMaterial) (s : SMState)
    (hm : s.objectMaterials = sceneMaterials) :
    (setShaderMaterial "plastic" li s).2 = materialEvents plasticMaterial := by
  simp [setShaderMaterial, findMaterial, hm, sceneMaterials, findMaterialAux,
    cementMaterial, tileMaterial, marbleMaterial, dirtMaterial, metalMaterial,
    glassMaterial, plasticMaterial, materialEvents]

set_option maxRecDepth 4000 in
/-- Once the scene materials are defined, the `RenderScene` trace does not
depend on the garbage initial values of the uninitialized locals: every
material tag the script uses is registered. -/
theorem renderScene_snd_localInit_irrelevant (li1 li2 : ObjectMaterial)
    (s : SMState) (hm : s.objectMaterials = sceneMaterials) :
    (renderScene li1 s).2 = (renderScene li2 s).2 := by
  simp only [renderScene, step, setTransformations_fst, setShaderColor_fst,
    setShaderTexture_fst, setShaderMaterial_fst, drawPlaneMesh_fst,
    drawBoxMesh_fst, drawBoxMeshSide_fst, drawCylinderMesh_fst,
    drawSphereMesh_fst, drawHalfSphereMesh_fst, drawTorusMesh_fst,
    drawTaperedCylinderMesh_fst, setShaderMaterial_scene_marble,
    setShaderMaterial_scene_tile, setShaderMaterial_scene_cement,
    setShaderMaterial_scene_dirt, setShaderMaterial_scene_metal,
    setShaderMaterial_scene_glass, setShaderMaterial_scene_plastic, hm]

@[simp]
theorem createGLTexture_objectMaterials (img : StbImage) (tag : String)
    (s : SMState) :
    ((createGLTexture img tag s).2).objectMaterials = s.objectMaterials := by
  cases img with
  | fail => rfl
  | ok w h c =>
    by_cases hc : c = 3 ∨ c = 4 <;> simp [createGLTexture, hc]

/-- After `PrepareScene` the material registry holds exactly the seven scene
materials (whatever the texture files decoded to). -/
theorem prepareScene_objectMaterials (disk : String → StbImage) :
    ((prepareScene disk initialState).1).objectMaterials = sceneMaterials := by
  simp [prepareScene, defineObjectMaterials, loadSceneTextures,
    createGLTexture_objectMaterials, initialState]

/-! ## Claim theorem on re-running `RenderScene` -/

/-- C3: `RenderScene` leaves the member state exactly as `PrepareScene`
built it, and running it a second time from that state — with any garbage in
the uninitialized locals either time — produces the identical trace of
uniform writes and draw submissions. -/
theorem renderScene_rerun_bit_identical (disk : String → StbImage)
    (localInit1 localInit2 : ObjectMaterial) :
    (renderScene localInit1 (prepareScene disk initialState).1).1 =
      (prepareScene disk initialState).1 ∧
    (renderScene localInit2
        ((renderScene localInit1 (prepareScene disk initialState).1).1)).2 =
      (renderScene localInit1 (prepareScene disk initialState).1).2 := by
  refine ⟨renderScene_fst _ _, ?_⟩
  rw [renderScene_fst]
  exact renderScene_snd_localInit_irrelevant localInit2 localInit1 _
    (prepareScene_objectMaterials disk)

end SceneMgr
